import Mathlib

/-!
Verification of basana's Binance exchange-connectivity layer: a shallow
embedding of `basana/external/binance/common.py`, `exchange.py`,
`basana/core/pair.py` and `contract.py`, followed by theorems checking the
specification's claims about it.

Python `Decimal` values parsed from the venue's decimal strings are modelled
as exact rationals (`Dec := ℚ`); payload dictionaries are modelled as
structures holding the parsed fields the embedded accessors read, with
`dict.get` fields as `Option`; code that can raise models its result as
`Except PyError`.
-/

deriving instance DecidableEq for Except

namespace Basana

/-- Venue decimal quantities: Python `Decimal`, exact decimal arithmetic. -/
abbrev Dec := ℚ

/-- The Python exceptions the embedded code can raise. -/
inductive PyError where
  | assertionError (msg : String)
  | indexError (msg : String)
  | valueError (msg : String)
  deriving Repr, DecidableEq

/-- The class name of a raised exception, as an except clause observes it. -/
def PyError.className : PyError → String
  | .assertionError _ => "AssertionError"
  | .indexError _ => "IndexError"
  | .valueError _ => "ValueError"

/-- `basana.core.pair.Pair`: immutable (base_symbol, quote_symbol) identity,
structural equality and hashing (frozen dataclass). -/
structure Pair where
  base_symbol : String
  quote_symbol : String
  deriving Repr, DecidableEq

/-- `basana.external.binance.contract.BinanceContractType`. -/
inductive BinanceContractType where
  | PERPETUAL
  | CURRENT_MONTH
  | NEXT_MONTH
  | CURRENT_QUARTER
  | NEXT_QUARTER
  | PERPETUAL_DELIVERING
  deriving Repr, DecidableEq

/-- The enum member's string value. -/
def BinanceContractType.value : BinanceContractType → String
  | .PERPETUAL => "PERPETUAL"
  | .CURRENT_MONTH => "CURRENT_MONTH"
  | .NEXT_MONTH => "NEXT_MONTH"
  | .CURRENT_QUARTER => "CURRENT_QUARTER"
  | .NEXT_QUARTER => "NEXT_QUARTER"
  | .PERPETUAL_DELIVERING => "PERPETUAL_DELIVERING"

/-- `BinanceContractType(s)`: enum construction from the value string; Python
raises ValueError on an unknown string, modelled by `none`. -/
def BinanceContractType.ofString (s : String) : Option BinanceContractType :=
  if s = "PERPETUAL" then some .PERPETUAL
  else if s = "CURRENT_MONTH" then some .CURRENT_MONTH
  else if s = "NEXT_MONTH" then some .NEXT_MONTH
  else if s = "CURRENT_QUARTER" then some .CURRENT_QUARTER
  else if s = "NEXT_QUARTER" then some .NEXT_QUARTER
  else if s = "PERPETUAL_DELIVERING" then some .PERPETUAL_DELIVERING
  else none

/-- `basana.core.pair.FuturesPair`: a pair plus venue symbol, contract type and
delivery date (the constructor in `FuturesExchange.get_pair` passes
`symbol_info.get("deliveryDate")`, so the field can be absent). -/
structure FuturesPair where
  base_symbol : String
  quote_symbol : String
  symbol : String
  contract_type : BinanceContractType
  delivery_date : Option Int
  deriving Repr, DecidableEq

/-- `exchange.PairInfoEx`: precisions plus the permission tags
(`symbol_info.get("permissions")`, absent modelled as `none`). -/
structure PairInfoEx where
  base_precision : Int
  quote_precision : Int
  permissions : Option (List String)
  deriving Repr, DecidableEq

/-- `exchange.FuturesPairInfoEx`. -/
structure FuturesPairInfoEx where
  base_precision : Int
  quote_precision : Int
  contract_type : BinanceContractType
  delivery_date : Option Int
  permissions : Option (List String)
  deriving Repr, DecidableEq

/-! ## Normalized view layer (`common.py`) -/

/-- `common.Trade`: the parsed payload fields `OrderInfo.__init__`'s fee
aggregation reads — `Decimal(json["commission"])` and
`json["commissionAsset"]`. -/
structure Trade where
  commission : Dec
  commissionAsset : String
  deriving Repr, DecidableEq

/-- The order payload fields read by the `OrderWrapper`/`OrderInfo` accessors
under verification: `orderId`, `status`, `Decimal(json["origQty"])`,
`Decimal(json["executedQty"])`, `Decimal(json["cummulativeQuoteQty"])`. -/
structure OrderJson where
  orderId : Nat
  status : String
  origQty : Dec
  executedQty : Dec
  cummulativeQuoteQty : Dec
  deriving Repr, DecidableEq

/-- `common.OrderInfo`: an order payload snapshot plus its trade list. -/
structure OrderInfo where
  json : OrderJson
  trades : List Trade
  deriving Repr, DecidableEq

/-- `OrderWrapper.amount`: `Decimal(self.json["origQty"])`. -/
def OrderInfo.amount (o : OrderInfo) : Dec := o.json.origQty

/-- `OrderWrapper.amount_filled`: `Decimal(self.json["executedQty"])`. -/
def OrderInfo.amount_filled (o : OrderInfo) : Dec := o.json.executedQty

/-- `OrderWrapper.quote_amount_filled`: `Decimal(self.json["cummulativeQuoteQty"])`. -/
def OrderInfo.quote_amount_filled (o : OrderInfo) : Dec := o.json.cummulativeQuoteQty

/-- `OrderInfo.amount_remaining`: `self.amount - self.amount_filled`. -/
def OrderInfo.amount_remaining (o : OrderInfo) : Dec :=
  o.amount - o.amount_filled

/-- `OrderInfo.fill_price`: `None` unless `self.amount_filled` is truthy (a
nonzero Decimal), else `self.quote_amount_filled / self.amount_filled`. -/
def OrderInfo.fill_price (o : OrderInfo) : Option Dec :=
  if o.amount_filled ≠ 0 then some (o.quote_amount_filled / o.amount_filled)
  else none

/-- One `self._fees[asset] += c` step on a `defaultdict(Decimal)` modelled as an
insertion-ordered association list: accumulate into an existing key in place,
append a missing key at the end. -/
def addFee : List (String × Dec) → String → Dec → List (String × Dec)
  | [], asset, c => [(asset, c)]
  | (a, v) :: rest, asset, c =>
      if a = asset then (a, v + c) :: rest else (a, v) :: addFee rest asset c

/-- The `OrderInfo.__init__` loop: for each trade, when `trade.commission` is
truthy (nonzero), `self._fees[trade.commission_asset] += trade.commission`. -/
def computeFees (trades : List Trade) : List (String × Dec) :=
  trades.foldl
    (fun fees t =>
      if t.commission ≠ 0 then addFee fees t.commissionAsset t.commission else fees)
    []

/-- `OrderInfo.fees`: the aggregated `self._fees` mapping. -/
def OrderInfo.fees (o : OrderInfo) : List (String × Dec) :=
  computeFees o.trades

/-- Indexing the `defaultdict(Decimal)`: a missing key reads as `Decimal()` = 0. -/
def feesAt : List (String × Dec) → String → Dec
  | [], _ => 0
  | (a, v) :: rest, asset => if a = asset then v else feesAt rest asset

/-- The key set (in insertion order) of the fees mapping. -/
def feeKeys (fees : List (String × Dec)) : List String :=
  fees.map Prod.fst

/-- Modelled from the spec: `helpers.order_status_is_open` is not under `src/`.
The spec's fixed status table: NEW/PARTIALLY_FILLED/PENDING are open;
FILLED/CANCELED/REJECTED/EXPIRED are closed. -/
def order_status_is_open (status : String) : Bool :=
  status == "NEW" || status == "PARTIALLY_FILLED" || status == "PENDING"

/-- The `common.CreatedOrder` payload fields its `status`/`is_open` accessors
read: `json.get("status")` is absent on ACK-only creation responses. -/
structure CreatedOrderJson where
  orderId : Nat
  status : Option String
  deriving Repr, DecidableEq

/-- `common.CreatedOrder`: view over a creation-response payload. -/
structure CreatedOrder where
  json : CreatedOrderJson
  deriving Repr, DecidableEq

/-- `CreatedOrder.status`: `self.json.get("status")`. -/
def CreatedOrder.status (o : CreatedOrder) : Option String := o.json.status

/-- `CreatedOrder.is_open`: `assert self.status is not None, "status not set"`,
then `helpers.order_status_is_open(self.status)`. -/
def CreatedOrder.is_open (o : CreatedOrder) : Except PyError Bool :=
  match o.status with
  | none => .error (.assertionError "status not set")
  | some s => .ok (order_status_is_open s)

/-- A leg entry of an OCO group's `orderReports`: the fields
`OCOOrderWrapper`'s leg lookups read (`order["orderId"]`, `order["type"]`). -/
structure OrderReport where
  orderId : Nat
  orderType : String
  deriving Repr, DecidableEq

/-- `common.OCOOrderWrapper`: `json.get("orderReports", [])` modelled as a list
(absent key is the empty default). -/
structure OCOOrderWrapper where
  orderListId : Nat
  orderReports : List OrderReport
  deriving Repr, DecidableEq

/-- `OCOOrderWrapper.limit_order_id`: the `str(order["orderId"])` of the
reports whose type is LIMIT or LIMIT_MAKER, indexed at 0 — an empty
comprehension makes `order_ids[0]` raise IndexError. -/
def OCOOrderWrapper.limit_order_id (o : OCOOrderWrapper) : Except PyError String :=
  let order_ids :=
    (o.orderReports.filter fun r =>
      r.orderType == "LIMIT" || r.orderType == "LIMIT_MAKER").map
      fun r => toString r.orderId
  match order_ids with
  | [] => .error (.indexError "list index out of range")
  | x :: _ => .ok x

/-- `OCOOrderWrapper.stop_loss_order_id`: as `limit_order_id` with the
STOP_LOSS / STOP_LOSS_LIMIT type tags. -/
def OCOOrderWrapper.stop_loss_order_id (o : OCOOrderWrapper) : Except PyError String :=
  let order_ids :=
    (o.orderReports.filter fun r =>
      r.orderType == "STOP_LOSS" || r.orderType == "STOP_LOSS_LIMIT").map
      fun r => toString r.orderId
  match order_ids with
  | [] => .error (.indexError "list index out of range")
  | x :: _ => .ok x

/-! ## Rate-governed request executor: metadata cache (`exchange.py`) -/

/-- `dict.get`: first-match lookup in an association list. -/
def dictGet {α β : Type} [DecidableEq α] : List (α × β) → α → Option β
  | [], _ => none
  | (k, v) :: rest, key => if k = key then some v else dictGet rest key

/-- Modelled from the spec: `helpers.pair_to_order_book_symbol` is not under
`src/`; the venue symbol for a pair is its base and quote identity joined. -/
def pair_to_order_book_symbol (p : Pair) : String :=
  p.base_symbol ++ p.quote_symbol

/-- Modelled from the spec: `helpers.pair_to_order_book_symbol` applied to a
`FuturesPair`, built from the same base/quote identity. -/
def futures_pair_to_order_book_symbol (p : FuturesPair) : String :=
  p.base_symbol ++ p.quote_symbol

/-- A symbol filter entry of the venue's exchange-info payload; the embedded
code reads `filterType`, `PRICE_FILTER`'s `tickSize` and `LOT_SIZE`'s
`stepSize`. -/
structure SymbolFilter where
  filterType : String
  tickSize : Dec
  stepSize : Dec
  deriving Repr, DecidableEq

/-- A symbol entry of the venue's exchange-info payload: the fields read by
`get_pair_info` and `get_pair` (optional fields are read with `.get`). -/
structure SymbolInfo where
  symbol : String
  pair : String
  contractType : String
  baseAsset : String
  quoteAsset : String
  deliveryDate : Option Int
  permissions : Option (List String)
  filters : List SymbolFilter
  deriving Repr, DecidableEq

/-- The venue's exchange-info payload. -/
structure ExchangeInfo where
  symbols : List SymbolInfo
  deriving Repr, DecidableEq

/-- `exchange.get_filter_from_symbol_info`: the first filter whose
`filterType` matches, `None` when the filtered list is empty. -/
def get_filter_from_symbol_info (symbol_info : SymbolInfo) (filter_type : String) :
    Option SymbolFilter :=
  match symbol_info.filters.filter fun f => f.filterType == filter_type with
  | [] => none
  | f :: _ => some f

/-- Floor base-10 logarithm on Nat by fuel recursion (fuel n suffices for n);
0 on 0. -/
def natLog10Fuel : Nat → Nat → Nat
  | 0, _ => 0
  | fuel + 1, n => if n < 10 then 0 else natLog10Fuel fuel (n / 10) + 1

/-- Floor base-10 logarithm on Nat. -/
def natLog10 (n : Nat) : Nat := natLog10Fuel n n

/-- `exchange.get_precision_from_step_size`:
`int(-Decimal(step_size).log10() / Decimal(10).log10())`. Venue step sizes are
powers of ten ("0.001", "1", "10"), where the decimal log is exact and the
value is the negated base-10 exponent, modelled here on such rationals as the
base-10 exponent of the denominator minus that of the numerator. -/
def get_precision_from_step_size (step_size : Dec) : Int :=
  (natLog10 step_size.den : Int) - (natLog10 step_size.num.natAbs : Int)

/-- The `SpotExchange` state that `get_pair_info` touches: the per-facade
`_pair_info_cache` plus a count of `get_exchange_info` requests issued through
the rate-limited client (the underlying metadata I/O). -/
structure SpotExchangeState where
  pair_info_cache : List (Pair × PairInfoEx)
  exchange_info_requests : Nat
  deriving Repr, DecidableEq

/-- `SpotExchange.get_pair_info`: return the cached entry when present
(a dataclass is always truthy, so `if not ret` means a cache miss); otherwise
issue one `get_exchange_info(symbol)` request, assert a single symbol, read the
PRICE_FILTER / LOT_SIZE filters, build the `PairInfoEx` and cache it. The
venue is a deterministic oracle mapping the requested symbol to its
exchange-info payload. -/
def SpotExchange.get_pair_info (venue : String → ExchangeInfo)
    (st : SpotExchangeState) (pair : Pair) :
    Except PyError (PairInfoEx × SpotExchangeState) :=
  match dictGet st.pair_info_cache pair with
  | some ret => .ok (ret, st)
  | none =>
    let exchange_info := venue (pair_to_order_book_symbol pair)
    let requests := st.exchange_info_requests + 1
    match exchange_info.symbols with
    | [symbol_info] =>
      match get_filter_from_symbol_info symbol_info "PRICE_FILTER" with
      | none => .error (.assertionError "PRICE_FILTER not found")
      | some price_filter =>
        match get_filter_from_symbol_info symbol_info "LOT_SIZE" with
        | none => .error (.assertionError "LOT_SIZE not found")
        | some lot_size =>
          let ret : PairInfoEx :=
            { base_precision := get_precision_from_step_size lot_size.stepSize,
              quote_precision := get_precision_from_step_size price_filter.tickSize,
              permissions := symbol_info.permissions }
          .ok (ret,
            { pair_info_cache := (pair, ret) :: st.pair_info_cache,
              exchange_info_requests := requests })
    | _ => .error (.assertionError "More than 1 symbol found")

/-- The `FuturesExchange` state that `get_pair_info` touches. -/
structure FuturesExchangeState where
  pair_info_cache : List (FuturesPair × FuturesPairInfoEx)
  exchange_info_requests : Nat
  deriving Repr, DecidableEq

/-- `FuturesExchange.get_pair_info`: cache lookup; on a miss one
`get_exchange_info()` request, filter the catalog by the pair's symbol and
contract type, assert exactly one match, build the `FuturesPairInfoEx` and
cache it. The futures venue is a constant catalog. -/
def FuturesExchange.get_pair_info (venue : ExchangeInfo)
    (st : FuturesExchangeState) (futures_pair : FuturesPair) :
    Except PyError (FuturesPairInfoEx × FuturesExchangeState) :=
  match dictGet st.pair_info_cache futures_pair with
  | some ret => .ok (ret, st)
  | none =>
    let requests := st.exchange_info_requests + 1
    let symbols := venue.symbols.filter fun x =>
      x.symbol == futures_pair_to_order_book_symbol futures_pair
    let symbols := symbols.filter fun x =>
      x.contractType == futures_pair.contract_type.value
    match symbols with
    | [] => .error (.assertionError "Symbol not found")
    | [symbol_info] =>
      match get_filter_from_symbol_info symbol_info "PRICE_FILTER" with
      | none => .error (.assertionError "PRICE_FILTER not found")
      | some price_filter =>
        match get_filter_from_symbol_info symbol_info "LOT_SIZE" with
        | none => .error (.assertionError "LOT_SIZE not found")
        | some lot_size =>
          match BinanceContractType.ofString symbol_info.contractType with
          | none => .error (.valueError "not a valid BinanceContractType")
          | some ct =>
            let ret : FuturesPairInfoEx :=
              { base_precision := get_precision_from_step_size lot_size.stepSize,
                quote_precision := get_precision_from_step_size price_filter.tickSize,
                contract_type := ct,
                delivery_date := symbol_info.deliveryDate,
                permissions := symbol_info.permissions }
            .ok (ret,
              { pair_info_cache := (futures_pair, ret) :: st.pair_info_cache,
                exchange_info_requests := requests })
    | _ :: _ :: _ => .error (.assertionError "More than 1 symbol found")

/-- The filter pipeline of `FuturesExchange.get_pair`: filter the catalog by
the `pair`, then `contract_type`, then `symbol` predicates, each applied only
when the argument is given, in source order. -/
def getPairMatches (venue : ExchangeInfo) (symbol : Option String)
    (pair : Option String) (contract_type : Option BinanceContractType) :
    List SymbolInfo :=
  let symbols := venue.symbols
  let symbols := match pair with
    | none => symbols
    | some p => symbols.filter fun x => x.pair == p
  let symbols := match contract_type with
    | none => symbols
    | some ct => symbols.filter fun x => x.contractType == ct.value
  match symbol with
  | none => symbols
  | some s => symbols.filter fun x => x.symbol == s

/-- `FuturesExchange.get_pair`: assert the filtered catalog is nonempty and a
singleton, then build the `FuturesPair` from that entry
(`BinanceContractType(...)` raises ValueError on an unknown tag). -/
def FuturesExchange.get_pair (venue : ExchangeInfo) (symbol : Option String)
    (pair : Option String) (contract_type : Option BinanceContractType) :
    Except PyError FuturesPair :=
  match getPairMatches venue symbol pair contract_type with
  | [] => .error (.assertionError "Symbol not found")
  | [symbol_info] =>
    match BinanceContractType.ofString symbol_info.contractType with
    | none => .error (.valueError "not a valid BinanceContractType")
    | some ct =>
      .ok { symbol := symbol_info.symbol,
            base_symbol := symbol_info.baseAsset,
            quote_symbol := symbol_info.quoteAsset,
            contract_type := ct,
            delivery_date := symbol_info.deliveryDate }
  | _ :: _ :: _ => .error (.assertionError "More than 1 symbol found")

/-! ## Channel multiplexer (`exchange.py`) -/

/-- A channel event source; allocation ids model object identity, so that
sharing ("the same instance") is provable. -/
structure ChannelEventSource where
  id : Nat
  deriving Repr, DecidableEq

/-- The facade's websocket client: its allocation id and its
channel-to-event-source registry (`get_channel_event_source` /
`set_channel_event_source`). -/
structure WebSocketClient where
  id : Nat
  channel_event_sources : List (String × ChannelEventSource)
  deriving Repr, DecidableEq

/-- The facade state `_subscribe_to_ws_channel_events` touches: the lazily
created `_websocket`, construction counters for websocket clients and channel
event sources, and the dispatcher's (event source, handler) registrations in
subscription order. Handlers are identified by number. -/
structure MuxState where
  websocket : Option WebSocketClient
  ws_clients_created : Nat
  sources_created : Nat
  dispatcher_subs : List (ChannelEventSource × Nat)
  deriving Repr, DecidableEq

/-- A freshly constructed facade: no websocket, nothing subscribed. -/
def initialMuxState : MuxState :=
  { websocket := none, ws_clients_created := 0, sources_created := 0,
    dispatcher_subs := [] }

/-- `_get_ws_client`: create the websocket client on first use, reuse it
afterwards. -/
def get_ws_client (st : MuxState) : WebSocketClient × MuxState :=
  match st.websocket with
  | some ws => (ws, st)
  | none =>
    let ws : WebSocketClient := { id := st.ws_clients_created, channel_event_sources := [] }
    (ws, { st with websocket := some ws, ws_clients_created := st.ws_clients_created + 1 })

/-- `_subscribe_to_ws_channel_events`: get/create the shared websocket client;
get the channel's event source, creating and registering it when absent (an
event source object is always truthy); then subscribe the handler to that
event source with the dispatcher. -/
def subscribe_to_ws_channel_events (st : MuxState) (channel : String)
    (event_handler : Nat) : MuxState :=
  let ws_pair := get_ws_client st
  let ws_cli := ws_pair.1
  let st1 := ws_pair.2
  match dictGet ws_cli.channel_event_sources channel with
  | some event_source =>
    { st1 with dispatcher_subs := st1.dispatcher_subs ++ [(event_source, event_handler)] }
  | none =>
    let event_source : ChannelEventSource := { id := st1.sources_created }
    let ws_cli1 := { ws_cli with
      channel_event_sources := (channel, event_source) :: ws_cli.channel_event_sources }
    { st1 with
      websocket := some ws_cli1,
      sources_created := st1.sources_created + 1,
      dispatcher_subs := st1.dispatcher_subs ++ [(event_source, event_handler)] }

/-- Subscribing a list of handlers to one channel, in order. -/
def subscribeAll (st : MuxState) (channel : String) (handlers : List Nat) : MuxState :=
  handlers.foldl (fun s h => subscribe_to_ws_channel_events s channel h) st

/-- Running an arbitrary sequence of (channel, handler) subscriptions. -/
def subscribeSeq (st : MuxState) (subs : List (String × Nat)) : MuxState :=
  subs.foldl (fun s e => subscribe_to_ws_channel_events s e.1 e.2) st

/-- The legacy-int-or-token bar duration argument
(`bar_duration: Union[int, str]`). -/
inductive BarDuration where
  | int (n : Int)
  | str (s : String)
  deriving Repr, DecidableEq

/-- The interval dictionary of `subscribe_to_bar_events`: legacy second counts
and symbolic tokens, both mapped to the internal interval token; `.get`
yields `None` for anything else. -/
def barDurationToInterval : BarDuration → Option String
  | .int 1 => some "1s"
  | .int 60 => some "1m"
  | .int 180 => some "3m"
  | .int 300 => some "5m"
  | .int 900 => some "15m"
  | .int 1800 => some "30m"
  | .int 3600 => some "1h"
  | .int 7200 => some "2h"
  | .int 14400 => some "4h"
  | .int 21600 => some "6h"
  | .int 28800 => some "8h"
  | .int 43200 => some "12h"
  | .int 86400 => some "1d"
  | .int 259200 => some "3d"
  | .int 604800 => some "1w"
  | .int 2678400 => some "1M"
  | .str "1s" => some "1s"
  | .str "1m" => some "1m"
  | .str "3m" => some "3m"
  | .str "5m" => some "5m"
  | .str "15m" => some "15m"
  | .str "30m" => some "30m"
  | .str "1h" => some "1h"
  | .str "2h" => some "2h"
  | .str "4h" => some "4h"
  | .str "6h" => some "6h"
  | .str "8h" => some "8h"
  | .str "12h" => some "12h"
  | .str "1d" => some "1d"
  | .str "3d" => some "3d"
  | .str "1w" => some "1w"
  | .str "1M" => some "1M"
  | _ => none

/-- The (legacy seconds, symbolic token) pairings supported by the table. -/
def legacyDurations : List (Int × String) :=
  [(1, "1s"), (60, "1m"), (180, "3m"), (300, "5m"), (900, "15m"), (1800, "30m"),
   (3600, "1h"), (7200, "2h"), (14400, "4h"), (21600, "6h"), (28800, "8h"),
   (43200, "12h"), (86400, "1d"), (259200, "3d"), (604800, "1w"), (2678400, "1M")]

/-- Modelled from the spec: `klines.get_channel` is not under `src/`; the
channel key is composed of the stream kind and its parameters (pair,
interval). -/
def klines_get_channel (pair : Pair) (interval : String) : String :=
  pair_to_order_book_symbol pair ++ "@kline_" ++ interval

/-- `subscribe_to_bar_events`: resolve the duration through the interval
dictionary, `assert interval, "Invalid bar_duration"`, then subscribe through
the channel multiplexer; the assert fires before any channel registration or
websocket use, so a failure leaves the facade untouched. -/
def subscribe_to_bar_events (st : MuxState) (pair : Pair)
    (bar_duration : BarDuration) (event_handler : Nat) :
    Except PyError MuxState :=
  match barDurationToInterval bar_duration with
  | none => .error (.assertionError "Invalid bar_duration")
  | some interval =>
    .ok (subscribe_to_ws_channel_events st (klines_get_channel pair interval) event_handler)

/-! ## Helper lemmas on the fee aggregation -/

theorem feesAt_addFee (fees : List (String × Dec)) (a b : String) (c : Dec) :
    feesAt (addFee fees a c) b = feesAt fees b + if b = a then c else 0 := by
  induction fees with
  | nil =>
    by_cases hba : b = a
    · subst hba; simp [addFee, feesAt]
    · have hab : ¬ a = b := fun h => hba h.symm
      simp [addFee, feesAt, hba, hab]
  | cons hd tl ih =>
    obtain ⟨k, v⟩ := hd
    by_cases hka : k = a
    · subst hka
      by_cases hkb : k = b
      · subst hkb; simp [addFee, feesAt]
      · have hbk : ¬ b = k := fun h => hkb h.symm
        simp [addFee, feesAt, hkb, hbk]
    · by_cases hkb : k = b
      · subst hkb
        simp [addFee, feesAt, hka]
      · simp [addFee, feesAt, hka, hkb, ih]

theorem feesAt_computeFees_aux (T : List Trade) (fees : List (String × Dec)) (a : String) :
    feesAt (T.foldl
        (fun fs t => if t.commission ≠ 0 then addFee fs t.commissionAsset t.commission else fs)
        fees) a
      = feesAt fees a + ((T.filter fun t => t.commissionAsset = a).map Trade.commission).sum := by
  induction T generalizing fees with
  | nil => simp
  | cons t T ih =>
    simp only [List.foldl_cons, List.filter_cons]
    rcases eq_or_ne t.commission 0 with hc | hc
    · rw [if_neg (by simp [hc])]
      rw [ih]
      by_cases ha : t.commissionAsset = a
      · simp [ha, hc]
      · simp [ha]
    · rw [if_pos hc, ih, feesAt_addFee]
      by_cases ha : t.commissionAsset = a
      · subst ha
        simp
        ring
      · rw [if_neg (fun h => ha h.symm)]
        simp [ha]

theorem feeKeys_addFee (fees : List (String × Dec)) (a b : String) (c : Dec) :
    b ∈ feeKeys (addFee fees a c) ↔ b ∈ feeKeys fees ∨ b = a := by
  induction fees with
  | nil => simp [addFee, feeKeys]
  | cons hd tl ih =>
    obtain ⟨k, v⟩ := hd
    simp only [addFee]
    rcases eq_or_ne k a with hka | hka
    · subst hka; simp [feeKeys]; tauto
    · rw [if_neg hka]
      simp only [feeKeys, List.map_cons, List.mem_cons] at ih ⊢
      tauto

theorem feeKeys_computeFees_aux (T : List Trade) (fees : List (String × Dec)) (a : String) :
    a ∈ feeKeys (T.foldl
        (fun fs t => if t.commission ≠ 0 then addFee fs t.commissionAsset t.commission else fs)
        fees)
      ↔ a ∈ feeKeys fees ∨ ∃ t ∈ T, t.commissionAsset = a ∧ t.commission ≠ 0 := by
  induction T generalizing fees with
  | nil => simp
  | cons t T ih =>
    simp only [List.foldl_cons]
    rcases eq_or_ne t.commission 0 with hc | hc
    · rw [if_neg (by simp [hc])]
      rw [ih]
      simp only [List.mem_cons]
      constructor
      · rintro (h | ⟨u, hu, hua, huc⟩)
        · exact Or.inl h
        · exact Or.inr ⟨u, Or.inr hu, hua, huc⟩
      · rintro (h | ⟨u, (rfl | hu), hua, huc⟩)
        · exact Or.inl h
        · exact absurd hc huc
        · exact Or.inr ⟨u, hu, hua, huc⟩
    · rw [if_pos hc, ih]
      simp only [feeKeys_addFee, List.mem_cons]
      constructor
      · rintro ((h | rfl) | ⟨u, hu, hua, huc⟩)
        · exact Or.inl h
        · exact Or.inr ⟨t, Or.inl rfl, rfl, hc⟩
        · exact Or.inr ⟨u, Or.inr hu, hua, huc⟩
      · rintro (h | ⟨u, (rfl | hu), hua, huc⟩)
        · exact Or.inl (Or.inl h)
        · exact Or.inl (Or.inr hua.symm)
        · exact Or.inr ⟨u, hu, hua, huc⟩

/-! ## Claims on the normalized view layer -/

/-- C3: for every `OrderInfo` built from a trade list `T` and every commission
asset `a` appearing in some trade of `T`, reading `fees[a]` yields the sum of
the commissions of the trades of `T` whose commission asset is `a`, in exact
decimal arithmetic. -/
theorem OrderInfo.fees_sums_commissions (j : OrderJson) (T : List Trade) (a : String)
    (ha : a ∈ T.map Trade.commissionAsset) :
    feesAt (OrderInfo.mk j T).fees a
      = ((T.filter fun t => t.commissionAsset = a).map Trade.commission).sum := by
  have h := feesAt_computeFees_aux T [] a
  simpa [OrderInfo.fees, computeFees, feesAt] using h

/-- Witness for C3: a concrete order with commissions 1 and 2 on BNB and a
zero commission on BTC has `fees["BNB"] = 3`. -/
theorem OrderInfo.fees_sums_commissions_witness :
    "BNB" ∈ ([⟨1, "BNB"⟩, ⟨0, "BTC"⟩, ⟨2, "BNB"⟩] : List Trade).map Trade.commissionAsset ∧
    feesAt (OrderInfo.mk ⟨7, "FILLED", 3, 2, 9⟩
        [⟨1, "BNB"⟩, ⟨0, "BTC"⟩, ⟨2, "BNB"⟩]).fees "BNB"
      = ((([⟨1, "BNB"⟩, ⟨0, "BTC"⟩, ⟨2, "BNB"⟩] : List Trade).filter
          fun t => t.commissionAsset = "BNB").map Trade.commission).sum :=
  ⟨by simp, OrderInfo.fees_sums_commissions ⟨7, "FILLED", 3, 2, 9⟩
    [⟨1, "BNB"⟩, ⟨0, "BTC"⟩, ⟨2, "BNB"⟩] "BNB" (by simp)⟩

/-- C9: a commission asset is a key of the fees mapping of an `OrderInfo`
built from trades `T` exactly when some trade of `T` carries that asset with a
nonzero commission; trades with zero commission are skipped. -/
theorem OrderInfo.fees_keys_iff_nonzero_commission (j : OrderJson) (T : List Trade) (a : String) :
    a ∈ feeKeys (OrderInfo.mk j T).fees
      ↔ ∃ t ∈ T, t.commissionAsset = a ∧ t.commission ≠ 0 := by
  have h := feeKeys_computeFees_aux T [] a
  simpa [OrderInfo.fees, computeFees, feeKeys] using h

/-- C4: `fill_price` is `None` (no division performed) when `amount_filled` is
zero and `quote_amount_filled / amount_filled` otherwise; with
`amount_filled = 2` and `quote_amount_filled = 9` it is `4.5`. -/
theorem OrderInfo.fill_price_spec (o : OrderInfo) :
    (o.amount_filled = 0 → o.fill_price = none) ∧
    (o.amount_filled ≠ 0 → o.fill_price = some (o.quote_amount_filled / o.amount_filled)) ∧
    (OrderInfo.mk ⟨7, "FILLED", 2, 2, 9⟩ []).fill_price = some (4.5 : Dec) := by
  refine ⟨fun h => by simp [OrderInfo.fill_price, h],
          fun h => by simp [OrderInfo.fill_price, h], ?_⟩
  rw [show (4.5 : Dec) = 9 / 2 by norm_num]
  simp [OrderInfo.fill_price, OrderInfo.amount_filled, OrderInfo.quote_amount_filled]

/-- C8: for every constructed `OrderInfo`, `amount_remaining` is `amount`
minus `amount_filled`, both read from the same payload snapshot, in exact
decimal arithmetic. -/
theorem OrderInfo.amount_remaining_round_trip (j : OrderJson) (T : List Trade) :
    (OrderInfo.mk j T).amount_remaining
      = (OrderInfo.mk j T).amount - (OrderInfo.mk j T).amount_filled := rfl

/-- C10: `CreatedOrder.is_open` raises an AssertionError ("status not set")
when the payload lacks the status field, and returns the boolean
open-predicate of the status only when it is present. -/
theorem CreatedOrder.is_open_requires_status (o : CreatedOrder) :
    (o.status = none → o.is_open = .error (.assertionError "status not set")) ∧
    (∀ s, o.status = some s → o.is_open = .ok (order_status_is_open s)) := by
  constructor
  · intro h; simp [CreatedOrder.is_open, h]
  · intro s h; simp [CreatedOrder.is_open, h]

/-- Witness for C10: an ACK-only creation response (no status) fails the
assertion; a FULL response with status NEW reads open. -/
theorem CreatedOrder.is_open_requires_status_witness :
    (CreatedOrder.mk ⟨5, none⟩).is_open = .error (.assertionError "status not set") ∧
    (CreatedOrder.mk ⟨5, some "NEW"⟩).is_open = .ok true :=
  ⟨(CreatedOrder.is_open_requires_status (CreatedOrder.mk ⟨5, none⟩)).1 rfl,
   (CreatedOrder.is_open_requires_status (CreatedOrder.mk ⟨5, some "NEW"⟩)).2 "NEW" rfl⟩

/-- C7: on an OCO group whose leg reports hold exactly one limit-type entry
and one stop-type entry, `limit_order_id` and `stop_loss_order_id` return the
respective leg's order id; when no leg of the requested type is present, the
lookup raises (IndexError on the empty comprehension). -/
theorem OCOOrderWrapper.leg_lookup (o : OCOOrderWrapper) :
    (∀ rL, (o.orderReports.filter fun r =>
        r.orderType == "LIMIT" || r.orderType == "LIMIT_MAKER") = [rL] →
      o.limit_order_id = .ok (toString rL.orderId)) ∧
    (∀ rS, (o.orderReports.filter fun r =>
        r.orderType == "STOP_LOSS" || r.orderType == "STOP_LOSS_LIMIT") = [rS] →
      o.stop_loss_order_id = .ok (toString rS.orderId)) ∧
    ((o.orderReports.filter fun r =>
        r.orderType == "LIMIT" || r.orderType == "LIMIT_MAKER") = [] →
      o.limit_order_id = .error (.indexError "list index out of range")) ∧
    ((o.orderReports.filter fun r =>
        r.orderType == "STOP_LOSS" || r.orderType == "STOP_LOSS_LIMIT") = [] →
      o.stop_loss_order_id = .error (.indexError "list index out of range")) := by
  refine ⟨?_, ?_, ?_, ?_⟩
  · intro rL h; simp [OCOOrderWrapper.limit_order_id, h]
  · intro rS h; simp [OCOOrderWrapper.stop_loss_order_id, h]
  · intro h; simp [OCOOrderWrapper.limit_order_id, h]
  · intro h; simp [OCOOrderWrapper.stop_loss_order_id, h]

/-- Witness for C7: a group holding a LIMIT leg (id 11) and a STOP_LOSS leg
(id 22) resolves both ids; a group with no reports fails both lookups. -/
theorem OCOOrderWrapper.leg_lookup_witness :
    (OCOOrderWrapper.mk 3 [⟨11, "LIMIT"⟩, ⟨22, "STOP_LOSS"⟩]).limit_order_id = .ok "11" ∧
    (OCOOrderWrapper.mk 3 [⟨11, "LIMIT"⟩, ⟨22, "STOP_LOSS"⟩]).stop_loss_order_id = .ok "22" ∧
    (OCOOrderWrapper.mk 4 []).limit_order_id = .error (.indexError "list index out of range") :=
  ⟨(OCOOrderWrapper.leg_lookup (OCOOrderWrapper.mk 3 [⟨11, "LIMIT"⟩, ⟨22, "STOP_LOSS"⟩])).1
      ⟨11, "LIMIT"⟩ (by decide),
   (OCOOrderWrapper.leg_lookup (OCOOrderWrapper.mk 3 [⟨11, "LIMIT"⟩, ⟨22, "STOP_LOSS"⟩])).2.1
      ⟨22, "STOP_LOSS"⟩ (by decide),
   (OCOOrderWrapper.leg_lookup (OCOOrderWrapper.mk 4 [])).2.2.1 (by decide)⟩

/-! ## Helper lemmas for the metadata cache -/

theorem dictGet_cons_self {α β : Type} [DecidableEq α] (k : α) (v : β) (rest : List (α × β)) :
    dictGet ((k, v) :: rest) k = some v := by
  simp [dictGet]

theorem spot_get_pair_info_hit (venue : String → ExchangeInfo) (st : SpotExchangeState)
    (p : Pair) (info : PairInfoEx) (hhit : dictGet st.pair_info_cache p = some info) :
    SpotExchange.get_pair_info venue st p = .ok (info, st) := by
  unfold SpotExchange.get_pair_info
  rw [hhit]

theorem spot_get_pair_info_miss (venue : String → ExchangeInfo) (st : SpotExchangeState)
    (p : Pair) (info : PairInfoEx) (st1 : SpotExchangeState)
    (hmiss : dictGet st.pair_info_cache p = none)
    (h : SpotExchange.get_pair_info venue st p = .ok (info, st1)) :
    st1.pair_info_cache = (p, info) :: st.pair_info_cache ∧
    st1.exchange_info_requests = st.exchange_info_requests + 1 := by
  unfold SpotExchange.get_pair_info at h
  rw [hmiss] at h
  dsimp only [] at h
  split at h <;> (try split at h) <;> (try split at h) <;>
    (first
      | (rw [Except.ok.injEq, Prod.mk.injEq] at h
         obtain ⟨h1, h2⟩ := h
         subst h1
         subst h2
         exact ⟨rfl, rfl⟩)
      | simp at h)

theorem futures_get_pair_info_hit (venue : ExchangeInfo) (st : FuturesExchangeState)
    (p : FuturesPair) (info : FuturesPairInfoEx)
    (hhit : dictGet st.pair_info_cache p = some info) :
    FuturesExchange.get_pair_info venue st p = .ok (info, st) := by
  unfold FuturesExchange.get_pair_info
  rw [hhit]

theorem futures_get_pair_info_miss (venue : ExchangeInfo) (st : FuturesExchangeState)
    (p : FuturesPair) (info : FuturesPairInfoEx) (st1 : FuturesExchangeState)
    (hmiss : dictGet st.pair_info_cache p = none)
    (h : FuturesExchange.get_pair_info venue st p = .ok (info, st1)) :
    st1.pair_info_cache = (p, info) :: st.pair_info_cache ∧
    st1.exchange_info_requests = st.exchange_info_requests + 1 := by
  unfold FuturesExchange.get_pair_info at h
  rw [hmiss] at h
  dsimp only [] at h
  split at h <;> (try split at h) <;> (try split at h) <;> (try split at h) <;>
    (first
      | (rw [Except.ok.injEq, Prod.mk.injEq] at h
         obtain ⟨h1, h2⟩ := h
         subst h1
         subst h2
         exact ⟨rfl, rfl⟩)
      | simp at h)

/-! ## Claim on the metadata cache -/

/-- C1: on both facades, a pair-info lookup that misses the per-facade cache
issues exactly one underlying exchange-info request and populates the cache;
a second call for the same pair returns the same cached value with the state
(request count included) unchanged, so the cached value is never refreshed
and a cache hit bypasses I/O entirely. -/
theorem pair_info_cache_single_request :
    (∀ (venue : String → ExchangeInfo) (st : SpotExchangeState) (p : Pair)
        (info : PairInfoEx) (st1 : SpotExchangeState),
      SpotExchange.get_pair_info venue st p = .ok (info, st1) →
      st1.exchange_info_requests ≤ st.exchange_info_requests + 1 ∧
      SpotExchange.get_pair_info venue st1 p = .ok (info, st1)) ∧
    (∀ (venue : String → ExchangeInfo) (st : SpotExchangeState) (p : Pair),
      dictGet st.pair_info_cache p = none →
      ∀ (info : PairInfoEx) (st1 : SpotExchangeState),
        SpotExchange.get_pair_info venue st p = .ok (info, st1) →
        st1.exchange_info_requests = st.exchange_info_requests + 1) ∧
    (∀ (venue : String → ExchangeInfo) (st : SpotExchangeState) (p : Pair)
        (info : PairInfoEx),
      dictGet st.pair_info_cache p = some info →
      SpotExchange.get_pair_info venue st p = .ok (info, st)) ∧
    (∀ (venue : ExchangeInfo) (st : FuturesExchangeState) (p : FuturesPair)
        (info : FuturesPairInfoEx) (st1 : FuturesExchangeState),
      FuturesExchange.get_pair_info venue st p = .ok (info, st1) →
      st1.exchange_info_requests ≤ st.exchange_info_requests + 1 ∧
      FuturesExchange.get_pair_info venue st1 p = .ok (info, st1)) ∧
    (∀ (venue : ExchangeInfo) (st : FuturesExchangeState) (p : FuturesPair),
      dictGet st.pair_info_cache p = none →
      ∀ (info : FuturesPairInfoEx) (st1 : FuturesExchangeState),
        FuturesExchange.get_pair_info venue st p = .ok (info, st1) →
        st1.exchange_info_requests = st.exchange_info_requests + 1) ∧
    (∀ (venue : ExchangeInfo) (st : FuturesExchangeState) (p : FuturesPair)
        (info : FuturesPairInfoEx),
      dictGet st.pair_info_cache p = some info →
      FuturesExchange.get_pair_info venue st p = .ok (info, st)) := by
  refine ⟨?_, ?_, ?_, ?_, ?_, ?_⟩
  · intro venue st p info st1 h
    rcases hcache : dictGet st.pair_info_cache p with _ | ret
    · obtain ⟨hc, hr⟩ := spot_get_pair_info_miss venue st p info st1 hcache h
      refine ⟨le_of_eq hr, ?_⟩
      exact spot_get_pair_info_hit venue st1 p info (by rw [hc, dictGet_cons_self])
    · have hok := spot_get_pair_info_hit venue st p ret hcache
      have h12 := Except.ok.inj (h.symm.trans hok)
      have h1 : info = ret := congrArg Prod.fst h12
      have h2 : st1 = st := congrArg Prod.snd h12
      subst h1
      subst h2
      exact ⟨Nat.le_succ _, hok⟩
  · intro venue st p hmiss info st1 h
    exact (spot_get_pair_info_miss venue st p info st1 hmiss h).2
  · intro venue st p info hhit
    exact spot_get_pair_info_hit venue st p info hhit
  · intro venue st p info st1 h
    rcases hcache : dictGet st.pair_info_cache p with _ | ret
    · obtain ⟨hc, hr⟩ := futures_get_pair_info_miss venue st p info st1 hcache h
      refine ⟨le_of_eq hr, ?_⟩
      exact futures_get_pair_info_hit venue st1 p info (by rw [hc, dictGet_cons_self])
    · have hok := futures_get_pair_info_hit venue st p ret hcache
      have h12 := Except.ok.inj (h.symm.trans hok)
      have h1 : info = ret := congrArg Prod.fst h12
      have h2 : st1 = st := congrArg Prod.snd h12
      subst h1
      subst h2
      exact ⟨Nat.le_succ _, hok⟩
  · intro venue st p hmiss info st1 h
    exact (futures_get_pair_info_miss venue st p info st1 hmiss h).2
  · intro venue st p info hhit
    exact futures_get_pair_info_hit venue st p info hhit

/-! ## Concrete demo values for witnesses and counterexamples -/

/-- A demo trading pair. -/
def demoPair : Pair := ⟨"BTC", "USDT"⟩

/-- A demo catalog entry: tick size 1 and step size 1 (precision 0 each). -/
def demoSymbolInfo : SymbolInfo :=
  ⟨"BTCUSDT", "BTCUSDT", "PERPETUAL", "BTC", "USDT", none, some ["SPOT"],
   [⟨"PRICE_FILTER", 1, 0⟩, ⟨"LOT_SIZE", 0, 1⟩]⟩

/-- A demo spot venue oracle answering every symbol query with the demo entry. -/
def demoVenue : String → ExchangeInfo := fun _ => ⟨[demoSymbolInfo]⟩

/-- The pair info the demo catalog entry denotes. -/
def demoPairInfo : PairInfoEx := ⟨0, 0, some ["SPOT"]⟩

/-- The facade state after the first demo lookup. -/
def demoSpotState1 : SpotExchangeState := ⟨[(demoPair, demoPairInfo)], 1⟩

/-- Witness for C1: on the demo venue, the first lookup issues one request and
caches; the second returns the cached value and leaves the state alone. -/
theorem pair_info_cache_single_request_witness :
    SpotExchange.get_pair_info demoVenue ⟨[], 0⟩ demoPair
      = .ok (demoPairInfo, demoSpotState1) ∧
    SpotExchange.get_pair_info demoVenue demoSpotState1 demoPair
      = .ok (demoPairInfo, demoSpotState1) ∧
    demoSpotState1.exchange_info_requests = 1 :=
  have h1 : SpotExchange.get_pair_info demoVenue ⟨[], 0⟩ demoPair
      = .ok (demoPairInfo, demoSpotState1) := by decide
  ⟨h1,
   (pair_info_cache_single_request.1 demoVenue ⟨[], 0⟩ demoPair demoPairInfo
     demoSpotState1 h1).2,
   rfl⟩

/-! ## Helper lemmas for the channel multiplexer -/

theorem subscribe_ws_hit (st : MuxState) (k : String) (h : Nat)
    (ws : WebSocketClient) (src : ChannelEventSource)
    (hws : st.websocket = some ws)
    (hsrc : dictGet ws.channel_event_sources k = some src) :
    subscribe_to_ws_channel_events st k h
      = { st with dispatcher_subs := st.dispatcher_subs ++ [(src, h)] } := by
  unfold subscribe_to_ws_channel_events get_ws_client
  rw [hws]
  dsimp only []
  rw [hsrc]
  dsimp only []
  rw [hws]

theorem subscribeAll_of_registered (k : String) (hs : List Nat) :
    ∀ (st : MuxState) (ws : WebSocketClient) (src : ChannelEventSource),
      st.websocket = some ws →
      dictGet ws.channel_event_sources k = some src →
      subscribeAll st k hs
        = { st with dispatcher_subs := st.dispatcher_subs ++ hs.map fun h => (src, h) } := by
  induction hs with
  | nil => intro st ws src hws hsrc; simp [subscribeAll]
  | cons h0 hs ih =>
    intro st ws src hws hsrc
    have hstep := subscribe_ws_hit st k h0 ws src hws hsrc
    simp only [subscribeAll, List.foldl_cons] at *
    rw [hstep]
    rw [ih { st with dispatcher_subs := st.dispatcher_subs ++ [(src, h0)] } ws src hws hsrc]
    simp

theorem subscribeSeq_preserves_client (subs : List (String × Nat)) :
    ∀ (st : MuxState) (ws : WebSocketClient), st.websocket = some ws →
      (subscribeSeq st subs).ws_clients_created = st.ws_clients_created ∧
      ∃ ws1, (subscribeSeq st subs).websocket = some ws1 := by
  induction subs with
  | nil => intro st ws hws; exact ⟨rfl, ws, hws⟩
  | cons s0 subs ih =>
    intro st ws hws
    simp only [subscribeSeq, List.foldl_cons] at *
    unfold subscribe_to_ws_channel_events get_ws_client
    rw [hws]
    dsimp only []
    rcases hsrc : dictGet ws.channel_event_sources s0.1 with _ | src <;> dsimp only []
    · exact ih _ _ rfl
    · exact ih _ ws hws

/-! ## Claim on the channel multiplexer -/

/-- C2: subscribing any nonempty list of handlers to one channel key from a
fresh facade creates exactly one websocket client and exactly one channel
event source (id 0, registered under the key); every handler is registered
with the dispatcher against that same shared source, in subscription order.
And any nonempty sequence of subscriptions, across any channels, creates
exactly one websocket client. -/
theorem channel_multiplexer_sharing :
    (∀ (k : String) (h0 : Nat) (hs : List Nat),
      subscribeAll initialMuxState k (h0 :: hs)
        = { websocket := some ⟨0, [(k, ⟨0⟩)]⟩,
            ws_clients_created := 1,
            sources_created := 1,
            dispatcher_subs := (h0 :: hs).map fun h => (⟨0⟩, h) }) ∧
    (∀ (s0 : String × Nat) (subs : List (String × Nat)),
      (subscribeSeq initialMuxState (s0 :: subs)).ws_clients_created = 1) := by
  constructor
  · intro k h0 hs
    have hfirst : subscribe_to_ws_channel_events initialMuxState k h0
        = { websocket := some ⟨0, [(k, ⟨0⟩)]⟩,
            ws_clients_created := 1,
            sources_created := 1,
            dispatcher_subs := [(⟨0⟩, h0)] } := rfl
    have hsplit : subscribeAll initialMuxState k (h0 :: hs)
        = subscribeAll (subscribe_to_ws_channel_events initialMuxState k h0) k hs := rfl
    rw [hsplit, hfirst,
      subscribeAll_of_registered k hs _ ⟨0, [(k, ⟨0⟩)]⟩ ⟨0⟩ rfl (dictGet_cons_self ..)]
    simp
  · intro s0 subs
    have hfirst : subscribe_to_ws_channel_events initialMuxState s0.1 s0.2
        = { websocket := some ⟨0, [(s0.1, ⟨0⟩)]⟩,
            ws_clients_created := 1,
            sources_created := 1,
            dispatcher_subs := [(⟨0⟩, s0.2)] } := rfl
    have hsplit : subscribeSeq initialMuxState (s0 :: subs)
        = subscribeSeq (subscribe_to_ws_channel_events initialMuxState s0.1 s0.2) subs := rfl
    rw [hsplit, hfirst]
    exact (subscribeSeq_preserves_client subs _ ⟨0, [(s0.1, ⟨0⟩)]⟩ rfl).1

/-- Witness for C2: two handlers on one channel share source 0 on the single
websocket client, registered in order. -/
theorem channel_multiplexer_sharing_witness :
    subscribeAll initialMuxState "btcusdt@trade" [4, 9]
      = { websocket := some ⟨0, [("btcusdt@trade", ⟨0⟩)]⟩,
          ws_clients_created := 1,
          sources_created := 1,
          dispatcher_subs := [(⟨0⟩, 4), (⟨0⟩, 9)] } := by
  have h := channel_multiplexer_sharing.1 "btcusdt@trade" 4 [9]
  simpa using h

/-! ## Claims on bar-duration normalization (C5) -/

/-- C5 counterexample: subscribing with the unrecognized duration "2m" fails
with an AssertionError — not with a ConfigurationError, as no such exception
class exists in the code (`assert interval, "Invalid bar_duration"`). -/
theorem bar_duration_config_error_counterexample :
    subscribe_to_bar_events initialMuxState demoPair (.str "2m") 0
      = .error (.assertionError "Invalid bar_duration") ∧
    PyError.className (.assertionError "Invalid bar_duration") ≠ "ConfigurationError" :=
  ⟨rfl, by decide⟩

/-- C5 (amended): the legacy numeric duration 60 and the token "1m" resolve to
the identical internal interval, and likewise every other supported
(seconds, token) pairing; an unrecognized duration such as "2m" or 7 fails at
subscribe time with an AssertionError (not a ConfigurationError), and the
failing call performs no channel registration or subscription attempt — it
returns no successor facade state. -/
theorem bar_duration_normalization (st : MuxState) (pair : Pair) (handler : Nat) :
    barDurationToInterval (.int 60) = some "1m" ∧
    barDurationToInterval (.str "1m") = some "1m" ∧
    (∀ p ∈ legacyDurations,
      barDurationToInterval (.int p.1) = some p.2 ∧
      barDurationToInterval (.str p.2) = some p.2) ∧
    (∀ d, barDurationToInterval d = none →
      subscribe_to_bar_events st pair d handler
        = .error (.assertionError "Invalid bar_duration")) ∧
    subscribe_to_bar_events st pair (.str "2m") handler
      = .error (.assertionError "Invalid bar_duration") ∧
    subscribe_to_bar_events st pair (.int 7) handler
      = .error (.assertionError "Invalid bar_duration") := by
  refine ⟨rfl, rfl, by decide, ?_, rfl, rfl⟩
  intro d hd
  simp [subscribe_to_bar_events, hd]

/-! ## Claims on futures instrument resolution (C6) -/

/-- C6 counterexample: on an empty catalog, `get_pair` fails with an
AssertionError ("Symbol not found") — not with a ConfigurationError, as no
such exception class exists in the code. -/
theorem futures_get_pair_config_error_counterexample :
    FuturesExchange.get_pair ⟨[]⟩ none (some "ABCUSDT") (some .PERPETUAL)
      = .error (.assertionError "Symbol not found") ∧
    PyError.className (.assertionError "Symbol not found") ≠ "ConfigurationError" :=
  ⟨rfl, by decide⟩

/-- C6 (amended): `get_pair` filters the catalog by the given pair,
contract-type and symbol predicates; exactly one match (with a recognized
contract-type tag) yields the `FuturesPair` built from that entry, while zero
matches fail with AssertionError "Symbol not found" and two or more with
AssertionError "More than 1 symbol found" (not ConfigurationError). -/
theorem futures_get_pair_resolution (venue : ExchangeInfo)
    (symbol pairQ : Option String) (ct : Option BinanceContractType) :
    (getPairMatches venue symbol pairQ ct = [] →
      FuturesExchange.get_pair venue symbol pairQ ct
        = .error (.assertionError "Symbol not found")) ∧
    (∀ si c, getPairMatches venue symbol pairQ ct = [si] →
      BinanceContractType.ofString si.contractType = some c →
      FuturesExchange.get_pair venue symbol pairQ ct
        = .ok ⟨si.baseAsset, si.quoteAsset, si.symbol, c, si.deliveryDate⟩) ∧
    (∀ si1 si2 rest, getPairMatches venue symbol pairQ ct = si1 :: si2 :: rest →
      FuturesExchange.get_pair venue symbol pairQ ct
        = .error (.assertionError "More than 1 symbol found")) := by
  refine ⟨?_, ?_, ?_⟩
  · intro h; simp [FuturesExchange.get_pair, h]
  · intro si c h hc; simp [FuturesExchange.get_pair, h, hc]
  · intro si1 si2 rest h; simp [FuturesExchange.get_pair, h]

/-- Witness for C6 (amended): a one-entry perpetual catalog resolves to the
`FuturesPair` built from that entry. -/
theorem futures_get_pair_resolution_witness :
    getPairMatches ⟨[demoSymbolInfo]⟩ none (some "BTCUSDT") (some .PERPETUAL)
      = [demoSymbolInfo] ∧
    FuturesExchange.get_pair ⟨[demoSymbolInfo]⟩ none (some "BTCUSDT") (some .PERPETUAL)
      = .ok ⟨"BTC", "USDT", "BTCUSDT", .PERPETUAL, none⟩ :=
  ⟨by decide,
   (futures_get_pair_resolution ⟨[demoSymbolInfo]⟩ none (some "BTCUSDT")
      (some .PERPETUAL)).2.1 demoSymbolInfo .PERPETUAL (by decide) rfl⟩

end Basana
